import Mathlib

/-!
Shallow embedding of the Portainer deploy/rollback scripts
(`scripts/deploy_portainer.py`, `scripts/rollback_portainer.py`) of the
TestTomation repository, together with theorems settling the spec claims
about the image-reference rewriter, the stack reconciler, the
previous-tag resolver and the rollback-history recorder.

Conventions of the embedding:
* Python `None`-or-string values (argparse defaults from `os.getenv`) are
  `Option String`; Python truthiness of such a value is `optTruthy`.
* A compose document is its `services` mapping (association list, as
  `dict.items()` iterates in insertion order) plus the other top-level
  fields, carried opaquely.  A service config is its optional `image`
  field plus its other fields, carried opaquely.
* `print` output that the claims mention is returned as a `List String`
  of printed lines.
* HTTP interactions are modelled by the response the script observes;
  `sys.exit(1)` paths are the `Except.error` branch.
-/

namespace TestTomation

/-- Python truthiness of an optional string: `None` and `""` are falsy. -/
def optTruthy : Option String → Bool
  | some s => !s.isEmpty
  | none   => false

/-- Python truthiness of an optional integer id: `None` and `0` are falsy
(`if stack_id:` in `deploy_portainer.main`). -/
def natTruthy : Option Nat → Bool
  | some n => n != 0
  | none   => false

/-- A service entry of the compose document: the optional `image` field and
every other field, passed through unexamined. -/
structure ServiceConfig where
  image : Option String
  other : List (String × String)
deriving DecidableEq

/-- The compose document: the `services` mapping (name → config, in
iteration order) and the other top-level fields. -/
structure ComposeData where
  services : List (String × ServiceConfig)
  other : List (String × String)
deriving DecidableEq

/-- `image.split(':')[0]` of `update_image_tags`: the prefix of the image
reference before the first `:` separator (the whole string when no `:`
occurs, since splitting then yields a single-element list). -/
def base_image (s : String) : String :=
  ⟨s.data.takeWhile (fun c => c != ':')⟩

/-- Python substring test `needle in haystack` on character lists. -/
def str_in (needle : List Char) : List Char → Bool
  | [] => needle.isEmpty
  | c :: rest => needle.isPrefixOf (c :: rest) || str_in needle rest

/-- `project_path.lower() in image.lower()`: the case-insensitive
project-path match of `update_image_tags`. -/
def matches_project (project_path image : String) : Bool :=
  str_in (project_path.data.map Char.toLower) (image.data.map Char.toLower)

/-- Whether `update_image_tags` rewrites a given service config: it has an
`image` field and the project path matches it. -/
def service_matches (project_path : String) (cfg : ServiceConfig) : Bool :=
  match cfg.image with
  | some img => matches_project project_path img
  | none => false

/-- The body of the `update_image_tags` loop for one service config:
if the config has an `image` matching the project path, replace it by
`base_image:image_tag`; otherwise leave the config alone. -/
def rewrite_image (project_path image_tag : String) (cfg : ServiceConfig) :
    ServiceConfig :=
  match cfg.image with
  | some img =>
    if matches_project project_path img then
      { cfg with image := some (base_image img ++ ":" ++ image_tag) }
    else cfg
  | none => cfg

/-- `update_image_tags(compose_data, registry_url, project_path, image_tag)`
of both scripts.  Returns the (possibly rewritten) document and the list of
printed lines.  When any of the three control inputs is falsy the document
is returned unchanged with the warning line; otherwise every service whose
image matches the project path has its image replaced by
`base_image:image_tag`, with one `Updated image` line per rewrite. -/
def update_image_tags (compose : ComposeData)
    (registry_url project_path image_tag : Option String) :
    ComposeData × List String :=
  if !optTruthy registry_url || !optTruthy project_path ||
      !optTruthy image_tag then
    (compose,
     ["Warning: Missing registry URL, project path, or image tag. Skipping image tag update."])
  else
    let pp := project_path.getD ""
    let tag := image_tag.getD ""
    ({ compose with
        services := compose.services.map fun nc => (nc.1, rewrite_image pp tag nc.2) },
     compose.services.filterMap fun nc =>
       match nc.2.image with
       | some img =>
         if matches_project pp img then
           some ("Updated image for service " ++ nc.1 ++ ": " ++
                 (base_image img ++ ":" ++ tag))
         else none
       | none => none)

/-- One entry of the `GET /api/stacks` response: the fields
`get_stack_id` inspects (`Name`, `EndpointId`, `Id`). -/
structure Stack where
  Name : String
  EndpointId : Int
  Id : Nat
deriving DecidableEq

/-- The loop of `get_stack_id`: return the `Id` of the first stack whose
`Name` and `EndpointId` both match exactly. -/
def find_stack_id (stackName : String) (envId : Int) : List Stack → Option Nat
  | [] => none
  | s :: rest =>
    if s.Name == stackName && s.EndpointId == envId then some s.Id
    else find_stack_id stackName envId rest

/-- `get_stack_id(portainer_url, api_key, env_id, stack_name)`: the listing
call either fails (any exception: the error is printed and `None` is
returned) or yields the stack array, which is scanned for the first exact
match on name and environment id. -/
def get_stack_id (listing : Except String (List Stack))
    (stackName : String) (envId : Int) : Option Nat :=
  match listing with
  | .error _ => none
  | .ok stackList => find_stack_id stackName envId stackList

/-- An API call issued by the deploy flow's reconcile step. -/
inductive ApiCall where
  | create (name : String) (endpointId : Int) (content : String)
      (prune pullImage : Bool)
  | update (stackId : Nat) (content : String) (prune pullImage : Bool)
deriving DecidableEq

/-- The `if stack_id: update_stack(...) else: create_stack(...)` branch of
`deploy_portainer.main`: the calls issued, given the lookup result.
Python truthiness (`natTruthy`) decides the branch. -/
def deploy_stack_calls (stackId : Option Nat) (stackName : String)
    (envId : Int) (content : String) (prune pull : Bool) : List ApiCall :=
  if natTruthy stackId then
    [.update (stackId.getD 0) content prune pull]
  else
    [.create stackName envId content prune pull]

/-- Lookup followed by the create-or-update branch of
`deploy_portainer.main` (lines 192-206). -/
def deploy_reconcile (listing : Except String (List Stack))
    (stackName : String) (envId : Int) (content : String)
    (prune pull : Bool) : List ApiCall :=
  deploy_stack_calls (get_stack_id listing stackName envId)
    stackName envId content prune pull

/-- What reading the last-successful-tag artifact file can observe:
the file is absent, it exists but opening/parsing raises (the exception is
caught and logged), or it parses and `data.get('last_successful_tag')`
yields the given optional value. -/
inductive ArtifactRead where
  | absent
  | unreadable
  | parsed (last_successful_tag : Option String)
deriving DecidableEq

/-- The tag the artifact-file step of `get_previous_tag` returns, if any:
only a parsed file whose `last_successful_tag` field is truthy yields one. -/
def artifact_tag : ArtifactRead → Option String
  | .parsed t => if optTruthy t then t else none
  | _ => none

/-- Outcome of `get_previous_tag`: a resolved tag, or the
`sys.exit(1)` path when no tag could be determined. -/
inductive TagResolution where
  | tag (t : String)
  | exitNoTag
deriving DecidableEq

/-- `query_previous_tag_from_registry(args)`: the stub that returns
`{branch}-latest` where branch is `os.getenv('CI_COMMIT_REF_NAME', 'main')`. -/
def query_previous_tag_from_registry (ci_commit_ref_name : Option String) :
    String :=
  (ci_commit_ref_name.getD "main") ++ "-latest"

/-- `get_previous_tag(args)` of `rollback_portainer.py`: an explicit
`--previous-tag` wins; otherwise a truthy `last_successful_tag` from the
artifact file wins; otherwise the registry-stub fallback is used if truthy;
otherwise the flow exits fatally. -/
def get_previous_tag (previous_tag : Option String) (artifact : ArtifactRead)
    (ci_commit_ref_name : Option String) : TagResolution :=
  if optTruthy previous_tag then .tag (previous_tag.getD "")
  else
    match artifact_tag artifact with
    | some t => .tag t
    | none =>
      let t := query_previous_tag_from_registry ci_commit_ref_name
      if !t.isEmpty then .tag t else .exitNoTag

/-- One record appended to `rollback_history.json`. -/
structure RollbackRecord where
  timestamp : String
  stack : String
  environment : String
  rolled_back_to : String
deriving DecidableEq

/-- What reading the rollback-history file can observe: absent,
existing but unparseable (`json.load` raises), or a parsed JSON array. -/
inductive HistoryRead where
  | absent
  | corrupted
  | valid (records : List RollbackRecord)
deriving DecidableEq

/-- The history-recording block of `rollback_portainer.main` (the final
`try`): start from an empty list, load the file if it exists, append the
new record and write the array back.  The whole block is wrapped in one
`try/except`, so an unparseable file raises out of the read, the exception
is caught, a warning is printed and nothing is written: the file is left
as it was.  Returns the resulting file state and the printed warnings. -/
def record_rollback (file : HistoryRead) (rec : RollbackRecord) :
    HistoryRead × List String :=
  match file with
  | .absent => (.valid [rec], [])
  | .corrupted =>
    (.corrupted, ["Warning: Could not record rollback history"])
  | .valid l => (.valid (l ++ [rec]), [])

/-- Iterated history recording: the file state after a sequence of
successful rollbacks each invoking the recording block. -/
def record_rollbacks (file : HistoryRead) (recs : List RollbackRecord) :
    HistoryRead :=
  recs.foldl (fun f r => (record_rollback f r).1) file

/-- The HTTP response a `requests` call observes. -/
structure HTTPResponse where
  status : Nat
  body : String
deriving DecidableEq

/-- `requests.Response.__bool__`, i.e. `Response.ok`: true iff the status
code is below 400.  This is what `if e.response:` evaluates. -/
def response_truthy (r : HTTPResponse) : Bool := r.status < 400

/-- Whether `response.raise_for_status()` raises `HTTPError`: it does
exactly for client and server error codes, `400 <= status < 600`. -/
def raises_for_status (r : HTTPResponse) : Bool :=
  400 ≤ r.status && r.status < 600

/-- `update_stack` of `rollback_portainer.py`, given the response to the
`PUT /api/stacks/{id}` call: on a raised `HTTPError` the except-branch
prints the error, prints the body only if `e.response` is truthy, and
exits with code 1; otherwise the call succeeds.  `Except.error` carries
the exit code and the printed lines. -/
def update_stack (r : HTTPResponse) : Except (Nat × List String) Bool :=
  if raises_for_status r then
    .error (1, "Error updating stack" ::
      (if response_truthy r then ["Response: " ++ r.body] else []))
  else .ok true

/-- `create_stack` of `deploy_portainer.py`, given the response to the
`POST /api/stacks` call: same fatal-error shape as `update_stack`, and on
success the created stack id is returned. -/
def create_stack (r : HTTPResponse) (createdId : Nat) :
    Except (Nat × List String) Nat :=
  if raises_for_status r then
    .error (1, "Error creating stack" ::
      (if response_truthy r then ["Response: " ++ r.body] else []))
  else .ok createdId

/-- The tail of `rollback_portainer.main`: the stack-update call followed,
only on success, by the history-recording block.  A fatal update
(`sys.exit(1)`) reaches the error branch before any record is written. -/
def rollback_finish (updateResp : HTTPResponse) (file : HistoryRead)
    (rec : RollbackRecord) :
    Except (Nat × List String) (HistoryRead × List String) :=
  match update_stack updateResp with
  | .error e => .error e
  | .ok _ => .ok (record_rollback file rec)

/-- The JSON payload of the rollback `PUT /api/stacks/{id}` call. -/
structure UpdatePayload where
  stackFileContent : String
  env : List String
  prune : Bool
  pullImage : Bool
deriving DecidableEq

/-- Payload built by `update_stack(portainer_url, api_key, stack_id,
env_id, compose_content, prune, pull)` in `rollback_portainer.py`. -/
def update_stack_payload (content : String) (prune pull : Bool) :
    UpdatePayload :=
  { stackFileContent := content, env := [], prune := prune,
    pullImage := pull }

/-- The rollback CLI arguments (`parse_arguments` of
`rollback_portainer.py`); there are no prune/pull flags. -/
structure RollbackArgs where
  portainer_url : Option String
  api_key : Option String
  env_id : Int
  stack_name : Option String
  compose_file : Option String
  registry_url : Option String
  project_path : Option String
  previous_tag : Option String
  artifact_path : String
deriving DecidableEq

/-- The payload of the update call issued by `rollback_portainer.main`
(line 213): `update_stack(..., compose_content, pull=True)` with `prune`
left at its default `False`, whatever the parsed arguments are. -/
def rollback_update_payload (_ : RollbackArgs) (content : String) :
    UpdatePayload :=
  update_stack_payload content false true

/-! ### Helper lemmas -/

theorem takeWhile_eq_self_of_all {p : Char → Bool} :
    ∀ l : List Char, (∀ c ∈ l, p c = true) → l.takeWhile p = l := by
  intro l h
  induction l with
  | nil => rfl
  | cons c rest ih =>
    rw [List.takeWhile_cons_of_pos (h c (List.mem_cons_self c rest))]
    rw [ih fun x hx => h x (List.mem_cons_of_mem c hx)]

theorem takeWhile_append_stop {p : Char → Bool} :
    ∀ (a : List Char) (c : Char) (b : List Char),
      (∀ x ∈ a, p x = true) → p c = false →
      (a ++ c :: b).takeWhile p = a := by
  intro a c b ha hc
  induction a with
  | nil =>
    simp only [List.nil_append]
    exact List.takeWhile_cons_of_neg (by simp [hc])
  | cons x rest ih =>
    rw [List.cons_append,
      List.takeWhile_cons_of_pos (ha x (List.mem_cons_self x rest))]
    rw [ih fun y hy => ha y (List.mem_cons_of_mem x hy)]

theorem base_image_data (s : String) :
    (base_image s).data = s.data.takeWhile (fun c => c != ':') := rfl

theorem base_image_colon_free (s : String) :
    ∀ c ∈ (base_image s).data, (c != ':') = true := by
  intro c hc
  rw [base_image_data] at hc
  simpa using List.mem_takeWhile_imp hc

/-- Splitting an already-rewritten reference `base:tag` on `:` recovers the
same base: the repository segment is a fixed point of the rewrite. -/
theorem base_image_stable (s t : String) :
    base_image (base_image s ++ ":" ++ t) = base_image s := by
  apply String.ext
  rw [base_image_data]
  have hdata : (base_image s ++ ":" ++ t).data
      = (base_image s).data ++ ':' :: t.data := by
    show ((base_image s).data ++ [':']) ++ t.data
        = (base_image s).data ++ ':' :: t.data
    rw [List.append_assoc]
    rfl
  rw [hdata]
  exact takeWhile_append_stop _ _ _ (base_image_colon_free s) (by decide)

theorem base_image_of_colon_free (s : String)
    (h : ∀ c ∈ s.data, (c != ':') = true) : base_image s = s := by
  apply String.ext
  rw [base_image_data]
  exact takeWhile_eq_self_of_all s.data h

theorem rewrite_image_other (p t : String) (cfg : ServiceConfig) :
    (rewrite_image p t cfg).other = cfg.other := by
  cases h : cfg.image <;> simp only [rewrite_image, h]
  split <;> rfl

theorem rewrite_image_of_no_match (p t : String) (cfg : ServiceConfig)
    (h : service_matches p cfg = false) : rewrite_image p t cfg = cfg := by
  cases himg : cfg.image with
  | none => simp only [rewrite_image, himg]
  | some img =>
    simp only [service_matches, himg] at h
    simp only [rewrite_image, himg, h, if_neg, Bool.false_eq_true,
      not_false_eq_true]

theorem rewrite_image_of_match (p t : String) (cfg : ServiceConfig)
    (img : String) (himg : cfg.image = some img)
    (h : matches_project p img = true) :
    rewrite_image p t cfg
      = { cfg with image := some (base_image img ++ ":" ++ t) } := by
  simp only [rewrite_image, himg, h, if_pos]

/-- The per-service rewrite is idempotent. -/
theorem rewrite_image_idem (p t : String) (cfg : ServiceConfig) :
    rewrite_image p t (rewrite_image p t cfg) = rewrite_image p t cfg := by
  cases himg : cfg.image with
  | none => simp only [rewrite_image, himg]
  | some img =>
    by_cases h : matches_project p img = true
    · rw [rewrite_image_of_match p t cfg img himg h]
      cases h2 : matches_project p (base_image img ++ ":" ++ t) with
      | false =>
        exact rewrite_image_of_no_match p t _
          (by simp only [service_matches, h2])
      | true =>
        rw [rewrite_image_of_match p t _ (base_image img ++ ":" ++ t) rfl h2]
        simp only [base_image_stable]
    · have h' : matches_project p img = false := by
        simpa using h
      have hfix : rewrite_image p t cfg = cfg :=
        rewrite_image_of_no_match p t cfg
          (by simp only [service_matches, himg, h'])
      rw [hfix, hfix]

theorem update_image_tags_of_truthy (compose : ComposeData)
    (ru pp it : Option String) (hru : optTruthy ru = true)
    (hpp : optTruthy pp = true) (hit : optTruthy it = true) :
    (update_image_tags compose ru pp it).1
      = { compose with
          services := compose.services.map fun nc =>
            (nc.1, rewrite_image (pp.getD "") (it.getD "") nc.2) } := by
  simp only [update_image_tags, hru, hpp, hit, Bool.not_true,
    Bool.false_or, Bool.or_self, Bool.or_false, Bool.false_eq_true,
    if_neg, not_false_eq_true]

theorem update_image_tags_of_missing (compose : ComposeData)
    (ru pp it : Option String)
    (h : optTruthy ru = false ∨ optTruthy pp = false ∨
         optTruthy it = false) :
    update_image_tags compose ru pp it
      = (compose,
         ["Warning: Missing registry URL, project path, or image tag. Skipping image tag update."]) := by
  have hb : (!optTruthy ru || !optTruthy pp || !optTruthy it) = true := by
    rcases h with h | h | h <;> simp [h]
  simp only [update_image_tags, hb, if_pos]

/-! ### Claim theorems -/

/-- C1: Rewriting a composition document with truthy control inputs
touches exactly the services whose image matches the project path: a
non-matching service entry is returned verbatim; a matching one keeps its
name and its other fields, its image becomes `base:tag`, and its
repository segment (the part before the first `:`) is unchanged; the other
top-level fields and the number and order of services are preserved; and
when no service matches, the whole document is returned unchanged. -/
theorem C1_rewriter_mutates_exactly_matching_tags (compose : ComposeData)
    (ru pp it : Option String)
    (hru : optTruthy ru = true) (hpp : optTruthy pp = true)
    (hit : optTruthy it = true) :
    ((update_image_tags compose ru pp it).1.other = compose.other) ∧
    ((update_image_tags compose ru pp it).1.services.length
       = compose.services.length) ∧
    (∀ (i : Nat) (nc : String × ServiceConfig),
      compose.services[i]? = some nc →
      (service_matches (pp.getD "") nc.2 = false →
        (update_image_tags compose ru pp it).1.services[i]? = some nc) ∧
      (∀ img, nc.2.image = some img →
        matches_project (pp.getD "") img = true →
        (update_image_tags compose ru pp it).1.services[i]?
          = some (nc.1,
              { image := some (base_image img ++ ":" ++ it.getD ""),
                other := nc.2.other }) ∧
        base_image (base_image img ++ ":" ++ it.getD "")
          = base_image img)) ∧
    ((∀ nc ∈ compose.services,
        service_matches (pp.getD "") nc.2 = false) →
      (update_image_tags compose ru pp it).1 = compose) := by
  rw [update_image_tags_of_truthy compose ru pp it hru hpp hit]
  refine ⟨rfl, List.length_map .., ?_, ?_⟩
  · intro i nc hnc
    constructor
    · intro hno
      simp only [List.getElem?_map, hnc, Option.map_some']
      rw [rewrite_image_of_no_match _ _ _ hno]
    · intro img himg hm
      refine ⟨?_, base_image_stable img (it.getD "")⟩
      simp only [List.getElem?_map, hnc, Option.map_some']
      rw [rewrite_image_of_match _ _ _ img himg hm]
  · intro hall
    have hmap : compose.services.map
        (fun nc => (nc.1, rewrite_image (pp.getD "") (it.getD "") nc.2))
        = compose.services := by
      have hcongr : ∀ nc ∈ compose.services,
          (nc.1, rewrite_image (pp.getD "") (it.getD "") nc.2) = id nc := by
        intro nc hnc
        rw [rewrite_image_of_no_match _ _ _ (hall nc hnc)]
        rfl
      rw [List.map_congr_left hcongr, List.map_id]
    rw [hmap]

/-- Witness for C1 at the spec's end-to-end scenario 1: one matching
service `web` with image `registry.example.com/myorg/app:old`, project
path `myorg/app`, tag `v2`. -/
theorem C1_witness :
    optTruthy (some "https://registry.example.com") = true ∧
    optTruthy (some "myorg/app") = true ∧
    optTruthy (some "v2") = true ∧
    (((update_image_tags
        ⟨[("web", ⟨some "registry.example.com/myorg/app:old",
                   [("restart", "always")]⟩)], [("version", "3")]⟩
        (some "https://registry.example.com") (some "myorg/app")
        (some "v2")).1.other = [("version", "3")]) ∧
     ((update_image_tags
        ⟨[("web", ⟨some "registry.example.com/myorg/app:old",
                   [("restart", "always")]⟩)], [("version", "3")]⟩
        (some "https://registry.example.com") (some "myorg/app")
        (some "v2")).1.services.length = 1) ∧
     (∀ (i : Nat) (nc : String × ServiceConfig),
        ([(("web" : String),
           (⟨some "registry.example.com/myorg/app:old",
             [("restart", "always")]⟩ : ServiceConfig))])[i]? = some nc →
        (service_matches ((some "myorg/app" : Option String).getD "") nc.2
            = false →
          (update_image_tags
            ⟨[("web", ⟨some "registry.example.com/myorg/app:old",
                       [("restart", "always")]⟩)], [("version", "3")]⟩
            (some "https://registry.example.com") (some "myorg/app")
            (some "v2")).1.services[i]? = some nc) ∧
        (∀ img, nc.2.image = some img →
          matches_project ((some "myorg/app" : Option String).getD "") img
              = true →
          (update_image_tags
            ⟨[("web", ⟨some "registry.example.com/myorg/app:old",
                       [("restart", "always")]⟩)], [("version", "3")]⟩
            (some "https://registry.example.com") (some "myorg/app")
            (some "v2")).1.services[i]?
            = some (nc.1,
                { image := some (base_image img ++ ":" ++
                    (some "v2" : Option String).getD ""),
                  other := nc.2.other }) ∧
          base_image (base_image img ++ ":" ++
              (some "v2" : Option String).getD "") = base_image img)) ∧
     ((∀ nc ∈ [(("web" : String),
           (⟨some "registry.example.com/myorg/app:old",
             [("restart", "always")]⟩ : ServiceConfig))],
         service_matches ((some "myorg/app" : Option String).getD "") nc.2
           = false) →
       (update_image_tags
          ⟨[("web", ⟨some "registry.example.com/myorg/app:old",
                     [("restart", "always")]⟩)], [("version", "3")]⟩
          (some "https://registry.example.com") (some "myorg/app")
          (some "v2")).1
         = ⟨[("web", ⟨some "registry.example.com/myorg/app:old",
                      [("restart", "always")]⟩)], [("version", "3")]⟩)) :=
  ⟨rfl, rfl, rfl,
   C1_rewriter_mutates_exactly_matching_tags
     ⟨[("web", ⟨some "registry.example.com/myorg/app:old",
                [("restart", "always")]⟩)], [("version", "3")]⟩
     (some "https://registry.example.com") (some "myorg/app") (some "v2")
     rfl rfl rfl⟩

/-- C5: the image-reference rewriter is idempotent: applying
`update_image_tags` with the same (registry URL, project path, tag) twice
yields the same document as applying it once. -/
theorem C5_rewriter_idempotent (compose : ComposeData)
    (ru pp it : Option String) :
    (update_image_tags (update_image_tags compose ru pp it).1 ru pp it).1
      = (update_image_tags compose ru pp it).1 := by
  cases hb : (!optTruthy ru || !optTruthy pp || !optTruthy it) with
  | true => simp only [update_image_tags, hb, if_pos]
  | false =>
    have hparts : (optTruthy ru = true ∧ optTruthy pp = true) ∧
        optTruthy it = true := by
      simpa using hb
    obtain ⟨⟨hru, hpp⟩, hit⟩ := hparts
    rw [update_image_tags_of_truthy compose ru pp it hru hpp hit,
        update_image_tags_of_truthy _ ru pp it hru hpp hit]
    simp only [List.map_map]
    have hcongr : ∀ nc ∈ compose.services,
        ((fun nc => (nc.1, rewrite_image (pp.getD "") (it.getD "") nc.2)) ∘
         (fun nc => (nc.1, rewrite_image (pp.getD "") (it.getD "") nc.2))) nc
          = (fun nc =>
              (nc.1, rewrite_image (pp.getD "") (it.getD "") nc.2)) nc := by
      intro nc _
      simp only [Function.comp_apply]
      rw [rewrite_image_idem]
    rw [List.map_congr_left hcongr]

/-- C6: a matching image reference with no `:` separator is still
rewritten: the whole reference is kept as the repository and the new value
is `reference:tag`. -/
theorem C6_no_colon_reference_still_rewritten (pp t img : String)
    (cfg : ServiceConfig) (himg : cfg.image = some img)
    (hnc : ∀ c ∈ img.data, (c != ':') = true)
    (hm : matches_project pp img = true) :
    rewrite_image pp t cfg = { cfg with image := some (img ++ ":" ++ t) } := by
  rw [rewrite_image_of_match pp t cfg img himg hm,
      base_image_of_colon_free img hnc]

/-- Witness for C6 at the spec's end-to-end scenario 2: image
`registry.example.com/myorg/app` (no tag), project path `myorg/app`,
tag `v2`. -/
theorem C6_witness :
    (⟨some "registry.example.com/myorg/app", []⟩ : ServiceConfig).image
      = some "registry.example.com/myorg/app" ∧
    (∀ c ∈ "registry.example.com/myorg/app".data, (c != ':') = true) ∧
    matches_project "myorg/app" "registry.example.com/myorg/app" = true ∧
    rewrite_image "myorg/app" "v2"
        ⟨some "registry.example.com/myorg/app", []⟩
      = ⟨some ("registry.example.com/myorg/app" ++ ":" ++ "v2"), []⟩ :=
  ⟨rfl, by decide, by decide,
   C6_no_colon_reference_still_rewritten "myorg/app" "v2"
     "registry.example.com/myorg/app"
     ⟨some "registry.example.com/myorg/app", []⟩ rfl (by decide) (by decide)⟩

/-- C9: if any of the three control inputs (registry URL, project path,
target tag) is falsy, the rewriter returns the document unchanged together
with exactly the warning line, and no fatal path exists (the function
totally returns). -/
theorem C9_missing_inputs_skip_update (compose : ComposeData)
    (ru pp it : Option String)
    (h : optTruthy ru = false ∨ optTruthy pp = false ∨
         optTruthy it = false) :
    update_image_tags compose ru pp it
      = (compose,
         ["Warning: Missing registry URL, project path, or image tag. Skipping image tag update."]) :=
  update_image_tags_of_missing compose ru pp it h

/-- Witness for C9: a missing registry URL leaves a one-service document
unchanged and emits the warning. -/
theorem C9_witness :
    (optTruthy (none : Option String) = false ∨
     optTruthy (some "myorg/app") = false ∨
     optTruthy (some "v2") = false) ∧
    update_image_tags ⟨[("web", ⟨some "img:1", []⟩)], []⟩
        none (some "myorg/app") (some "v2")
      = (⟨[("web", ⟨some "img:1", []⟩)], []⟩,
         ["Warning: Missing registry URL, project path, or image tag. Skipping image tag update."]) :=
  ⟨Or.inl rfl,
   C9_missing_inputs_skip_update ⟨[("web", ⟨some "img:1", []⟩)], []⟩
     none (some "myorg/app") (some "v2") (Or.inl rfl)⟩

theorem fallback_tag_not_empty (b : Option String) :
    (query_previous_tag_from_registry b).isEmpty = false := by
  rw [Bool.eq_false_iff]
  intro h
  have h2 := (String.isEmpty_iff _).mp h
  have h3 : (query_previous_tag_from_registry b).data = [] := by
    rw [h2]
  have h4 : (b.getD "main").data ++ "-latest".data = [] := h3
  rcases List.append_eq_nil.mp h4 with ⟨_, hbad⟩
  exact absurd hbad (by decide)

/-- C2 counterexample: the listing holds a matching stack whose `Id` is 0;
the lookup returns that identifier, yet the reconcile step issues a create
call rather than an update against it (`if stack_id:` is false for 0). -/
theorem C2_counterexample :
    get_stack_id (Except.ok [⟨"qa-stack", 1, 0⟩]) "qa-stack" 1 = some 0 ∧
    deploy_reconcile (Except.ok [⟨"qa-stack", 1, 0⟩]) "qa-stack" 1
        "content" false false
      = [ApiCall.create "qa-stack" 1 "content" false false] ∧
    deploy_reconcile (Except.ok [⟨"qa-stack", 1, 0⟩]) "qa-stack" 1
        "content" false false
      ≠ [ApiCall.update 0 "content" false false] :=
  ⟨rfl, rfl, by decide⟩

/-- C2 (amended): if the lookup yields no identifier or the (falsy)
identifier 0, exactly one create call and no update call is issued; if it
yields a nonzero identifier, exactly one update call against that
identifier and no create call is issued. -/
theorem C2_reconcile_create_or_update (listing : Except String (List Stack))
    (name : String) (envId : Int) (content : String) (prune pull : Bool) :
    ((get_stack_id listing name envId = none ∨
      get_stack_id listing name envId = some 0) →
      deploy_reconcile listing name envId content prune pull
        = [ApiCall.create name envId content prune pull]) ∧
    (∀ i : Nat, get_stack_id listing name envId = some i → i ≠ 0 →
      deploy_reconcile listing name envId content prune pull
        = [ApiCall.update i content prune pull]) := by
  constructor
  · intro h
    unfold deploy_reconcile deploy_stack_calls
    rcases h with h | h <;> rw [h] <;> simp [natTruthy]
  · intro i hi hne
    unfold deploy_reconcile deploy_stack_calls
    rw [hi]
    simp [natTruthy, hne]

/-- Witness for C2: a nonzero identifier 7 leads to exactly one update
call against 7; an empty listing leads to exactly one create call. -/
theorem C2_witness :
    get_stack_id (Except.ok [⟨"qa-stack", 1, 7⟩]) "qa-stack" 1 = some 7 ∧
    (7 : Nat) ≠ 0 ∧
    deploy_reconcile (Except.ok [⟨"qa-stack", 1, 7⟩]) "qa-stack" 1
        "c" false false
      = [ApiCall.update 7 "c" false false] ∧
    get_stack_id (Except.ok []) "qa-stack" 1 = none ∧
    deploy_reconcile (Except.ok []) "qa-stack" 1 "c" false false
      = [ApiCall.create "qa-stack" 1 "c" false false] :=
  ⟨rfl, by decide,
   (C2_reconcile_create_or_update (Except.ok [⟨"qa-stack", 1, 7⟩])
     "qa-stack" 1 "c" false false).2 7 rfl (by decide),
   rfl,
   (C2_reconcile_create_or_update (Except.ok []) "qa-stack" 1
     "c" false false).1 (Or.inl rfl)⟩

/-- C3: previous-tag resolution follows the ordered chain — a truthy
explicit tag always wins; otherwise a truthy `last_successful_tag` from
the artifact file wins; otherwise the result is `{branch}-latest` with the
branch defaulting to `main`; and the no-tag fatal exit is unreachable. -/
theorem C3_previous_tag_resolution_chain (pt : Option String)
    (art : ArtifactRead) (branch : Option String) :
    (optTruthy pt = true →
      get_previous_tag pt art branch = TagResolution.tag (pt.getD "")) ∧
    (optTruthy pt = false → ∀ t : String, artifact_tag art = some t →
      get_previous_tag pt art branch = TagResolution.tag t) ∧
    (optTruthy pt = false → artifact_tag art = none →
      get_previous_tag pt art branch
        = TagResolution.tag ((branch.getD "main") ++ "-latest")) ∧
    get_previous_tag pt art branch ≠ TagResolution.exitNoTag := by
  have hfb : (!(query_previous_tag_from_registry branch).isEmpty) = true := by
    rw [fallback_tag_not_empty]
    rfl
  refine ⟨?_, ?_, ?_, ?_⟩
  · intro h
    simp [get_previous_tag, h]
  · intro h t ht
    simp [get_previous_tag, h, ht]
  · intro h ht
    simp only [get_previous_tag, h, Bool.false_eq_true, if_false, ht, hfb,
      if_true]
    rfl
  · cases hpt : optTruthy pt with
    | true => simp [get_previous_tag, hpt]
    | false =>
      cases hart : artifact_tag art with
      | some t => simp [get_previous_tag, hpt, hart]
      | none =>
        simp only [get_previous_tag, hpt, Bool.false_eq_true, if_false,
          hart, hfb, if_true]
        intro hcon
        cases hcon

/-- Witness for C3: the explicit tag `v1` wins over an absent artifact;
an artifact tag `t9` wins when no explicit tag is given; with neither,
branch `release/2.0` resolves to `release/2.0-latest`. -/
theorem C3_witness :
    optTruthy (some "v1") = true ∧
    get_previous_tag (some "v1") ArtifactRead.absent none
      = TagResolution.tag "v1" ∧
    optTruthy (none : Option String) = false ∧
    artifact_tag (ArtifactRead.parsed (some "t9")) = some "t9" ∧
    get_previous_tag none (ArtifactRead.parsed (some "t9")) none
      = TagResolution.tag "t9" ∧
    artifact_tag ArtifactRead.unreadable = none ∧
    get_previous_tag none ArtifactRead.unreadable (some "release/2.0")
      = TagResolution.tag ("release/2.0" ++ "-latest") :=
  ⟨rfl,
   (C3_previous_tag_resolution_chain (some "v1") ArtifactRead.absent
     none).1 rfl,
   rfl, rfl,
   (C3_previous_tag_resolution_chain none
     (ArtifactRead.parsed (some "t9")) none).2.1 rfl "t9" rfl,
   rfl,
   (C3_previous_tag_resolution_chain none ArtifactRead.unreadable
     (some "release/2.0")).2.2.1 rfl rfl⟩

/-- C4 counterexample: with a corrupted (unparseable) history file the
recording block catches the parse failure, warns, and leaves the file as
it was — the new record is NOT appended, contrary to the claim that a
corrupted file is treated as zero prior records with the record still
appended. -/
theorem C4_counterexample :
    (record_rollback HistoryRead.corrupted
        ⟨"2025-01-01 00:00:00", "qa-stack", "main", "v1"⟩).1
      = HistoryRead.corrupted ∧
    (record_rollback HistoryRead.corrupted
        ⟨"2025-01-01 00:00:00", "qa-stack", "main", "v1"⟩).1
      ≠ HistoryRead.valid
          [⟨"2025-01-01 00:00:00", "qa-stack", "main", "v1"⟩] :=
  ⟨rfl, by decide⟩

/-- C4 (amended): after N ≥ 1 successful rollbacks starting from a missing
history file, the file holds exactly those N records in invocation order;
a missing file is treated as zero prior records and the record is
appended; a parsed file gets the record appended at its end; a corrupted
file makes the recording step a warned no-op (the record is not appended);
none of these cases is fatal — the recorder always returns a state. -/
theorem C4_history_recording (r : RollbackRecord)
    (rs l : List RollbackRecord) :
    record_rollbacks HistoryRead.absent (r :: rs)
      = HistoryRead.valid (r :: rs) ∧
    record_rollback HistoryRead.absent r = (HistoryRead.valid [r], []) ∧
    record_rollback (HistoryRead.valid l) r
      = (HistoryRead.valid (l ++ [r]), []) ∧
    (record_rollback HistoryRead.corrupted r).1 = HistoryRead.corrupted ∧
    (record_rollback HistoryRead.corrupted r).2
      = ["Warning: Could not record rollback history"] := by
  refine ⟨?_, rfl, rfl, rfl, rfl⟩
  have key : ∀ (xs acc : List RollbackRecord),
      record_rollbacks (HistoryRead.valid acc) xs
        = HistoryRead.valid (acc ++ xs) := by
    intro xs
    induction xs with
    | nil => intro acc; simp [record_rollbacks]
    | cons x rest ih =>
      intro acc
      simp only [record_rollbacks, List.foldl_cons] at ih ⊢
      rw [show (record_rollback (HistoryRead.valid acc) x).1
          = HistoryRead.valid (acc ++ [x]) from rfl]
      rw [ih (acc ++ [x]), List.append_assoc]
      rfl
  simp only [record_rollbacks, List.foldl_cons]
  rw [show (record_rollback HistoryRead.absent r).1
      = HistoryRead.valid [r] from rfl]
  have hkey := key rs [r]
  simp only [record_rollbacks] at hkey
  rw [hkey]
  rfl

/-- C7, evaluated at the failing input: a 500 response to the rollback
update call is fatal with exit code 1 and no history record is written,
but, against the claim, the response body is never printed — the guard
`if hasattr(e, 'response') and e.response:` tests `requests.Response`
truthiness, which is `status < 400` and hence false for every raised
`HTTPError`.  A 304 response, also non-2xx, is not fatal at all. -/
theorem C7_fatal_update_never_prints_body :
    update_stack ⟨500, "stack update failed"⟩
      = Except.error (1, ["Error updating stack"]) ∧
    rollback_finish ⟨500, "stack update failed"⟩ (HistoryRead.valid [])
        ⟨"2025-01-01 00:00:00", "qa-stack", "main", "v1"⟩
      = Except.error (1, ["Error updating stack"]) ∧
    create_stack ⟨500, "stack create failed"⟩ 3
      = Except.error (1, ["Error creating stack"]) ∧
    update_stack ⟨304, "not modified"⟩ = Except.ok true :=
  ⟨rfl, rfl, rfl, rfl⟩

/-- C8: the stack lookup returns none when the listing call fails (without
propagating the failure), returns the `Id` of the first stack matching
both name and environment id exactly, and returns none when no stack
matches. -/
theorem C8_stack_lookup (listing : Except String (List Stack))
    (name : String) (envId : Int) :
    (∀ e : String, listing = Except.error e →
      get_stack_id listing name envId = none) ∧
    (∀ sl : List Stack, listing = Except.ok sl →
      get_stack_id listing name envId
        = (sl.find? fun s => s.Name == name && s.EndpointId == envId).map
            Stack.Id ∧
      ((∀ s ∈ sl, (s.Name == name && s.EndpointId == envId) = false) →
        get_stack_id listing name envId = none)) := by
  have hfind : ∀ sl : List Stack, find_stack_id name envId sl
      = (sl.find? fun s => s.Name == name && s.EndpointId == envId).map
          Stack.Id := by
    intro sl
    induction sl with
    | nil => rfl
    | cons s rest ih =>
      by_cases h : (s.Name == name && s.EndpointId == envId) = true
      · simp [find_stack_id, List.find?_cons, h]
      · have h' : (s.Name == name && s.EndpointId == envId) = false := by
          simpa using h
        simp [find_stack_id, List.find?_cons, h', ih]
  constructor
  · intro e he
    rw [he]
    rfl
  · intro sl hsl
    rw [hsl]
    refine ⟨hfind sl, ?_⟩
    intro hnone
    show find_stack_id name envId sl = none
    rw [hfind sl, List.find?_eq_none.mpr, Option.map_none']
    intro s hs
    simp [hnone s hs]

/-- Witness for C8: among two stacks, only `("qa-stack", 2)` matches, and
its id 7 is returned; an error listing yields none. -/
theorem C8_witness :
    get_stack_id
        (Except.ok [⟨"other", 1, 5⟩, ⟨"qa-stack", 2, 7⟩]) "qa-stack" 2
      = (([⟨"other", 1, 5⟩, ⟨"qa-stack", 2, 7⟩] : List Stack).find?
          fun s => s.Name == "qa-stack" && s.EndpointId == 2).map
          Stack.Id ∧
    get_stack_id
        (Except.ok [⟨"other", 1, 5⟩, ⟨"qa-stack", 2, 7⟩]) "qa-stack" 2
      = some 7 ∧
    get_stack_id (Except.error "connection refused") "qa-stack" 2
      = none :=
  ⟨((C8_stack_lookup
      (Except.ok [⟨"other", 1, 5⟩, ⟨"qa-stack", 2, 7⟩]) "qa-stack" 2).2
      [⟨"other", 1, 5⟩, ⟨"qa-stack", 2, 7⟩] rfl).1,
   rfl,
   (C8_stack_lookup (Except.error "connection refused") "qa-stack" 2).1
     "connection refused" rfl⟩

/-- C10: the update call issued by the rollback flow always carries
`pullImage = true` and `prune = false`, whatever the parsed rollback
arguments are (the rollback CLI exposes no prune/pull flags). -/
theorem C10_rollback_forces_pull_no_prune (args : RollbackArgs)
    (content : String) :
    (rollback_update_payload args content).prune = false ∧
    (rollback_update_payload args content).pullImage = true ∧
    rollback_update_payload args content
      = update_stack_payload content false true :=
  ⟨rfl, rfl, rfl⟩

end TestTomation
